import Mathlib

/-!
Shallow embedding of the cost-allocation engine of the whopays backend.

The embedded code is `ReceiptService._calculate_splits` and the surrounding
`ReceiptService.calculate_receipt_splits` from `app/services/receipt_services.py`,
together with the helper `_round2`.  Monetary values (Python `Decimal` built from
the stored floats) are modelled as exact rationals `ℚ`; `Decimal.quantize` with
`ROUND_HALF_UP` is modelled by `round2` below (round to 2 decimal places, ties
away from zero, which is what `ROUND_HALF_UP` does on `Decimal`).

The Python dictionaries `friend_subtotals` and `per_item_share_by_friend`
(initialised with exactly the ids of the receipt's friends) are modelled as total
functions together with an explicit key-membership check: reading a key that was
never initialised raises `KeyError` in Python, which the embedding surfaces as
`Except.error (CalcError.keyError _)` carrying the offending friend id.

`Decimal` division by zero raises: for an item whose stored `quantity` is `0`,
the line `unit_total = _round2(unit_price / Decimal(quantity))` raises
`decimal.DivisionByZero` — or `decimal.InvalidOperation` when `unit_price` is
also `0` (the `0/0` case) — before the item's friend links are traversed and
before `line_total` is accumulated.  The embedding surfaces both conditions
through `CalcError`, so a run of the model succeeds exactly when the Python run
returns split data.
-/

namespace WhoPays

/-- Friend id, as stored in the `friends` table. -/
abbrev FriendId := Nat

/-- A friend row as seen by the split computation (post-ORM, soft-deleted rows
already filtered out by the traversal in `_calculate_splits`). -/
structure Friend where
  id : FriendId
  name : String
  photo_url : String
deriving DecidableEq

/-- A receipt line item.  `unit_price` is the stored price, which the code treats
as the total price of the line (`line_total = unit_price`).  `item_friends` is
the list of non-deleted friends linked to the item via the `item_friends`
association, in link order. -/
structure Item where
  id : Nat
  item_name : String
  quantity : Int
  unit_price : ℚ
  item_friends : List Friend
deriving DecidableEq

/-- The receipt aggregate handed to `_calculate_splits`. -/
structure Receipt where
  id : Nat
  currency : String
  total_amount : ℚ
  tax : ℚ
  service_charge : ℚ
  items : List Item
deriving DecidableEq

/-- One entry of a friend's per-item share list
(the dictionaries appended to `per_item_share_by_friend[f.id]`). -/
structure ItemShare where
  item_id : Nat
  item_name : String
  share : ℚ
deriving DecidableEq

/-- One entry of the `friends` list attached to an item in the output
(the dictionaries appended to `shares`). -/
structure ItemFriendShare where
  id : FriendId
  name : String
  share : ℚ
deriving DecidableEq

/-- The per-item record appended to the output `items` list. -/
structure ItemOut where
  item_id : Nat
  item_name : String
  quantity : Int
  unit_price : ℚ
  unit_total : ℚ
  line_total : ℚ
  friends : List ItemFriendShare
deriving DecidableEq

/-- One entry of the output `totals` list: a friend's computed share. -/
structure FriendTotal where
  id : FriendId
  name : String
  photo_url : String
  subtotal : ℚ
  tax : ℚ
  service_charge : ℚ
  total : ℚ
  items : List ItemShare
deriving DecidableEq

/-- The output `summary` dictionary. -/
structure Summary where
  subtotal : ℚ
  tax : ℚ
  service_charge : ℚ
  total : ℚ
deriving DecidableEq

/-- The dictionary returned by `_calculate_splits`. -/
structure SplitsData where
  receipt_id : Nat
  currency : String
  totals : List FriendTotal
  items : List ItemOut
  summary : Summary
deriving DecidableEq

/-- Round half up to an integer: `Decimal` `ROUND_HALF_UP` (ties away from zero)
after scaling.  For `x ≥ 0` this is `⌊x + 1/2⌋`; for `x < 0` it mirrors to
`-⌊1/2 - x⌋`. -/
def roundHalfUp (x : ℚ) : ℤ :=
  if 0 ≤ x then ⌊x + 1 / 2⌋ else -⌊1 / 2 - x⌋

/-- The helper `_round2` of `receipt_services.py`:
`x.quantize(Decimal("0.01"), rounding=ROUND_HALF_UP)`. -/
def round2 (x : ℚ) : ℚ :=
  (roundHalfUp (x * 100) : ℚ) / 100

/-- The ratio used by the proportional tax/service allocation:
`(subtotal_f / receipt_subtotal) if receipt_subtotal > 0 else Decimal("0")`. -/
def ratioOf (base s : ℚ) : ℚ :=
  if base > 0 then s / base else 0

/-- Exceptions that `_calculate_splits` itself can raise, all uncaught by it:
`keyError fid` is the Python `KeyError` from reading `friend_subtotals[f.id]`
for an id that is not a key; `divisionByZero` and `invalidOperation` are the
`decimal` module's errors from `unit_price / Decimal(quantity)` when
`quantity` is `0` (`InvalidOperation` being the `0/0` case). -/
inductive CalcError where
  | keyError (fid : FriendId)
  | divisionByZero
  | invalidOperation
deriving DecidableEq

/-- Mutable state threaded through the item loop of `_calculate_splits`:
the two per-friend dictionaries, the output `items` list, and the running
`receipt_subtotal`. -/
structure CalcState where
  friend_subtotals : FriendId → ℚ
  per_item_share_by_friend : FriendId → List ItemShare
  items : List ItemOut
  receipt_subtotal : ℚ

/-- The state at the top of `_calculate_splits`: both dictionaries hold
`Decimal("0")` / `[]` for every receipt friend, no items, zero subtotal. -/
def initState : CalcState :=
  { friend_subtotals := fun _ => 0
    per_item_share_by_friend := fun _ => []
    items := []
    receipt_subtotal := 0 }

/-- The inner `for f in associated_friends` loop of `_calculate_splits`: add
`per_friend_share` to `friend_subtotals[f.id]`, append to
`per_item_share_by_friend[f.id]` and to the item's `shares` list.  Reading
`friend_subtotals[f.id]` for an id that is not a key (i.e. not among the
receipt friends' ids) raises `KeyError`, modelled as
`Except.error (CalcError.keyError f.id)`. -/
def processFriends (knownIds : List FriendId) (itemId : Nat) (itemName : String)
    (perShare : ℚ) :
    List Friend → CalcState → List ItemFriendShare →
    Except CalcError (CalcState × List ItemFriendShare)
  | [], st, shares => Except.ok (st, shares)
  | f :: rest, st, shares =>
    if f.id ∈ knownIds then
      processFriends knownIds itemId itemName perShare rest
        { st with
          friend_subtotals := fun i =>
            if i = f.id then st.friend_subtotals f.id + perShare
            else st.friend_subtotals i
          per_item_share_by_friend := fun i =>
            if i = f.id then
              st.per_item_share_by_friend f.id ++ [⟨itemId, itemName, perShare⟩]
            else st.per_item_share_by_friend i }
        (shares ++ [⟨f.id, f.name, perShare⟩])
    else
      Except.error (CalcError.keyError f.id)

/-- End of one iteration of the item loop: append the item's output record and
accumulate `receipt_subtotal = receipt_subtotal + line_total`. -/
def appendItem (st : CalcState) (item : Item) (unit_total line_total : ℚ)
    (shares : List ItemFriendShare) : CalcState :=
  { st with
    items := st.items ++
      [⟨item.id, item.item_name, item.quantity, item.unit_price, unit_total,
        line_total, shares⟩]
    receipt_subtotal := st.receipt_subtotal + line_total }

/-- One iteration of the `for item in receipt.items` loop of
`_calculate_splits`.  The locals of the Python body are inlined:
`line_total = unit_price`, `unit_total = _round2(unit_price / quantity)`,
`per_friend_share = _round2(line_total / len(associated_friends))`.
The `unit_total` division is computed first (before the friend links are
walked), so a zero `quantity` raises the `decimal` division error there:
`InvalidOperation` when the dividend is also zero, `DivisionByZero`
otherwise. -/
def processItem (knownIds : List FriendId) (item : Item) (st : CalcState) :
    Except CalcError CalcState :=
  if item.quantity = 0 then
    Except.error
      (if item.unit_price = 0 then CalcError.invalidOperation
       else CalcError.divisionByZero)
  else if item.item_friends.isEmpty then
    Except.ok
      (appendItem st item (round2 (item.unit_price / (item.quantity : ℚ)))
        item.unit_price [])
  else
    match processFriends knownIds item.id item.item_name
        (round2 (item.unit_price / (item.item_friends.length : ℚ)))
        item.item_friends st [] with
    | Except.error g => Except.error g
    | Except.ok (st1, shares) =>
      Except.ok
        (appendItem st1 item (round2 (item.unit_price / (item.quantity : ℚ)))
          item.unit_price shares)

/-- The whole item loop of `_calculate_splits`. -/
def processItems (knownIds : List FriendId) :
    List Item → CalcState → Except CalcError CalcState
  | [], st => Except.ok st
  | item :: rest, st =>
    match processItem knownIds item st with
    | Except.error g => Except.error g
    | Except.ok st1 => processItems knownIds rest st1

/-- One entry of the output `totals` list, as built by the
`for f in friends` loop after the item loop. -/
def mkFriendTotal (receipt : Receipt) (st : CalcState) (f : Friend) :
    FriendTotal :=
  let subtotal_f := st.friend_subtotals f.id
  let tax_f := round2 (receipt.tax * ratioOf st.receipt_subtotal subtotal_f)
  let service_f :=
    round2 (receipt.service_charge * ratioOf st.receipt_subtotal subtotal_f)
  { id := f.id
    name := f.name
    photo_url := f.photo_url
    subtotal := subtotal_f
    tax := tax_f
    service_charge := service_f
    total := subtotal_f + tax_f + service_f
    items := st.per_item_share_by_friend f.id }

/-- `ReceiptService._calculate_splits(receipt, friends)`.  An uncaught Python
exception — `KeyError` for an unknown friend id referenced by an item link, or
a `decimal` division error for a zero item quantity — is `Except.error`. -/
def _calculate_splits (receipt : Receipt) (friends : List Friend) :
    Except CalcError SplitsData :=
  match processItems (friends.map Friend.id) receipt.items initState with
  | Except.error g => Except.error g
  | Except.ok st =>
    Except.ok
      { receipt_id := receipt.id
        currency := receipt.currency
        totals := friends.map (mkFriendTotal receipt st)
        items := st.items
        summary :=
          ⟨st.receipt_subtotal, receipt.tax, receipt.service_charge,
            receipt.total_amount⟩ }

/-- Errors that can escape `calculate_receipt_splits` once the receipt has been
loaded: a Python `TypeError` (raised when an exception constructor is called
with a required argument missing) or an uncaught error from
`_calculate_splits`.  `splitCalculationError` is the
`ReceiptSplitCalculationError` the code tries to raise for a receipt with no
friends; it is listed here so that theorems can state that it is never
actually produced. -/
inductive ServiceError where
  | typeError (message : String)
  | calcError (e : CalcError)
  | splitCalculationError (reason : String)
deriving DecidableEq

/-- The no-friends branch of `calculate_receipt_splits` executes
`raise ReceiptSplitCalculationError(reason=..., correlation_id=...)`, but
`ReceiptSplitCalculationError.__init__` (exceptions.py) requires a positional
`receipt_id` argument that the call site omits, so constructing the exception
itself raises `TypeError`. -/
def noFriendsRaise : ServiceError :=
  ServiceError.typeError
    "ReceiptSplitCalculationError missing required positional argument receipt_id"

/-- `ReceiptService.calculate_receipt_splits` after the receipt has been loaded:
with no receipt friends it attempts to raise `ReceiptSplitCalculationError`
(which actually raises `TypeError`, see `noFriendsRaise`); otherwise it runs
`_calculate_splits`.  Uncaught exceptions are re-raised by the service wrapper,
so no split data is returned on any error path. -/
def calculate_receipt_splits (receipt : Receipt) (receipt_friends : List Friend) :
    Except ServiceError SplitsData :=
  if receipt_friends.isEmpty then
    Except.error noFriendsRaise
  else
    match _calculate_splits receipt receipt_friends with
    | Except.error e => Except.error (ServiceError.calcError e)
    | Except.ok d => Except.ok d

/-- The per-item output record that `_calculate_splits` produces for `item`:
every linked friend receives exactly `round2(line_total / number_of_friends)`,
and an item with no linked friends gets an empty shares list. -/
def mkItemOut (item : Item) : ItemOut :=
  { item_id := item.id
    item_name := item.item_name
    quantity := item.quantity
    unit_price := item.unit_price
    unit_total := round2 (item.unit_price / (item.quantity : ℚ))
    line_total := item.unit_price
    friends := item.item_friends.map fun f =>
      ⟨f.id, f.name, round2 (item.unit_price / (item.item_friends.length : ℚ))⟩ }

/-- Sum of the `total` fields of a computed split, `0` on error. -/
def sumTotals (x : Except CalcError SplitsData) : ℚ :=
  match x with
  | Except.ok d => (d.totals.map FriendTotal.total).sum
  | Except.error _ => 0

/-- Projection of a computed split to `(friend id, subtotal)` pairs in list
order, `[]` on error. -/
def totalsIdSub (x : Except CalcError SplitsData) : List (FriendId × ℚ) :=
  match x with
  | Except.ok d => d.totals.map fun e => (e.id, e.subtotal)
  | Except.error _ => []

/-- The computed summary, `none` on error. -/
def summaryOf (x : Except CalcError SplitsData) : Option Summary :=
  match x with
  | Except.ok d => some d.summary
  | Except.error _ => none

/-- Whether the computation returned split data. -/
def calcIsOk (x : Except CalcError SplitsData) : Bool :=
  match x with
  | Except.ok _ => true
  | Except.error _ => false

/-- Concrete friend with id 1. -/
def friendA : Friend := ⟨1, "A", ""⟩

/-- Concrete friend with id 2. -/
def friendB : Friend := ⟨2, "B", ""⟩

/-- The worked example of the specification: `grandTotal = 31.00`,
`tax = 2.50`, `serviceCharge = 3.00`, a 24.00 burger shared by friends 1 and 2,
and a 1.50 soda assigned to nobody. -/
def cx1Receipt : Receipt :=
  ⟨1, "MYR", 31, 5 / 2, 3,
    [⟨1, "Burger", 1, 24, [friendA, friendB]⟩, ⟨2, "Soda", 1, 3 / 2, []⟩]⟩

/-- Friends of the worked example. -/
def cx1Friends : List Friend := [friendA, friendB]

/-- A receipt where friend 1 has zero assigned items and friend 2 has the only
item (cost 10, tax and service charge 0). -/
def zReceipt : Receipt := ⟨2, "MYR", 10, 0, 0, [⟨1, "Nasi", 1, 10, [friendB]⟩]⟩

/-- Friends of `zReceipt`: friend 1 first, then friend 2. -/
def zFriends : List Friend := [friendA, friendB]

/-- Expected split of `zReceipt`: friend 1 appears with an all-zero entry even
though no item is assigned to them, and entries follow input friend order. -/
def zData : SplitsData :=
  ⟨2, "MYR",
    [⟨1, "A", "", 0, 0, 0, 0, []⟩,
     ⟨2, "B", "", 10, 0, 0, 10, [⟨1, "Nasi", 10⟩]⟩],
    [⟨1, "Nasi", 1, 10, 10, 10, [⟨2, "B", 10⟩]⟩],
    ⟨10, 0, 0, 10⟩⟩

/-- A friend with id 99 that is not among the receipt's friends. -/
def friendZ : Friend := ⟨99, "Z", ""⟩

/-- A receipt whose only item is linked to the unknown friend 99. -/
def uReceipt : Receipt := ⟨3, "MYR", 10, 0, 0, [⟨1, "X", 1, 10, [friendZ]⟩]⟩

/-- Known friends for `uReceipt`: only friend 1. -/
def uFriends : List Friend := [friendA]

/-- A receipt with an empty items list but nonzero recorded totals. -/
def eReceipt : Receipt := ⟨4, "MYR", 31, 5 / 2, 7 / 4, []⟩

/-- Friends of `eReceipt`. -/
def eFriends : List Friend := [friendA]

/-- A receipt whose cost, tax, service charge and grand total are all
negative. -/
def nReceipt : Receipt := ⟨5, "MYR", -5, -1, -1, [⟨1, "X", 1, -2, [friendA]⟩]⟩

/-- Friends of `nReceipt`. -/
def nFriends : List Friend := [friendA]

/-- A minimal fully-assigned receipt: one 10.00 item for friend 1,
tax 1.00, service charge 0, grand total 11.00. -/
def wReceipt : Receipt := ⟨6, "USD", 11, 1, 0, [⟨1, "X", 1, 10, [friendA]⟩]⟩

/-- Friends of `wReceipt`. -/
def wFriends : List Friend := [friendA]

/-- Expected totals entry for friend 1 on `wReceipt`:
ratio `10/10 = 1`, tax `round2(1·1) = 1`, total `11`. -/
def wEntry : FriendTotal := ⟨1, "A", "", 10, 1, 0, 11, [⟨1, "X", 10⟩]⟩

/-- Expected split of `wReceipt`. -/
def wData : SplitsData :=
  ⟨6, "USD", [wEntry], [⟨1, "X", 1, 10, 10, 10, [⟨1, "A", 10⟩]⟩], ⟨10, 1, 0, 11⟩⟩

/-- A receipt whose only item has cost 0, so the subtotal baseline is 0 while
tax and service charge are positive. -/
def bReceipt : Receipt := ⟨7, "MYR", 7, 3, 4, [⟨1, "Free", 1, 0, [friendA]⟩]⟩

/-- Friends of `bReceipt`. -/
def bFriends : List Friend := [friendA]

/-- A receipt with two friends of different subtotals: friend 1 owes 10.00,
friend 2 owes 5.00, tax 1.00. -/
def w9Receipt : Receipt :=
  ⟨8, "MYR", 17, 1, 0,
    [⟨1, "X", 1, 10, [friendA]⟩, ⟨2, "Y", 1, 5, [friendB]⟩]⟩

/-- Friends of `w9Receipt`. -/
def w9Friends : List Friend := [friendA, friendB]

/-- Expected totals entry for friend 1 on `w9Receipt`:
ratio `10/15`, tax `round2(2/3) = 0.67`. -/
def w9EntryA : FriendTotal :=
  ⟨1, "A", "", 10, 67 / 100, 0, 10 + 67 / 100, [⟨1, "X", 10⟩]⟩

/-- Expected totals entry for friend 2 on `w9Receipt`:
ratio `5/15`, tax `round2(1/3) = 0.33`. -/
def w9EntryB : FriendTotal :=
  ⟨2, "B", "", 5, 33 / 100, 0, 5 + 33 / 100, [⟨2, "Y", 5⟩]⟩

/-- Expected split of `w9Receipt`. -/
def w9Data : SplitsData :=
  ⟨8, "MYR", [w9EntryA, w9EntryB],
    [⟨1, "X", 1, 10, 10, 10, [⟨1, "A", 10⟩]⟩,
     ⟨2, "Y", 1, 5, 5, 5, [⟨2, "B", 5⟩]⟩],
    ⟨15, 1, 0, 17⟩⟩

/-- A receipt whose only item has a stored quantity of 0 and a nonzero price:
computing `unit_total` divides by zero. -/
def qReceipt : Receipt := ⟨9, "MYR", 10, 0, 0, [⟨1, "Q", 0, 10, [friendA]⟩]⟩

/-- A receipt whose only item has quantity 0 and price 0: computing
`unit_total` is the `0/0` case. -/
def q0Receipt : Receipt := ⟨10, "MYR", 0, 0, 0, [⟨1, "Q0", 0, 0, [friendA]⟩]⟩

/-- Friends of `qReceipt` and `q0Receipt`. -/
def qFriends : List Friend := [friendA]

/-- Rounding half up (ties away from zero) is monotone. -/
theorem roundHalfUp_mono {x y : ℚ} (h : x ≤ y) : roundHalfUp x ≤ roundHalfUp y := by
  by_cases hx : 0 ≤ x
  · have hy : 0 ≤ y := le_trans hx h
    simp only [roundHalfUp, if_pos hx, if_pos hy]
    exact Int.floor_le_floor (by linarith)
  · by_cases hy : 0 ≤ y
    · simp only [roundHalfUp, if_neg hx, if_pos hy]
      have h1 : (0 : ℤ) ≤ ⌊(1 : ℚ) / 2 - x⌋ := by
        rw [Int.le_floor]
        push_cast
        linarith [lt_of_not_le hx]
      have h2 : (0 : ℤ) ≤ ⌊y + 1 / 2⌋ := by
        rw [Int.le_floor]
        push_cast
        linarith
      omega
    · simp only [roundHalfUp, if_neg hx, if_neg hy]
      have h3 := Int.floor_le_floor (show (1 : ℚ) / 2 - y ≤ 1 / 2 - x by linarith)
      omega

/-- The 2-decimal rounding `_round2` is monotone. -/
theorem round2_mono {x y : ℚ} (h : x ≤ y) : round2 x ≤ round2 y := by
  unfold round2
  have h1 := roundHalfUp_mono (mul_le_mul_of_nonneg_right h (by norm_num : (0 : ℚ) ≤ 100))
  have h2 : ((roundHalfUp (x * 100) : ℤ) : ℚ) ≤ ((roundHalfUp (y * 100) : ℤ) : ℚ) := by
    exact_mod_cast h1
  linarith

/-- Rounding zero gives zero. -/
theorem round2_zero : round2 0 = 0 := by
  unfold round2 roundHalfUp
  norm_num

/-- The allocation ratio is monotone in the friend's subtotal. -/
theorem ratioOf_mono {base sa sb : ℚ} (h : sb ≤ sa) :
    ratioOf base sb ≤ ratioOf base sa := by
  unfold ratioOf
  split
  · next hb => exact (div_le_div_iff_of_pos_right hb).mpr h
  · exact le_refl 0

/-- A successful run of the inner friends loop leaves `items` and
`receipt_subtotal` untouched and appends one share of `perShare` per linked
friend, in link order. -/
theorem processFriends_ok (knownIds : List FriendId) (itemId : Nat)
    (itemName : String) (perShare : ℚ) (l : List Friend) :
    ∀ st shares st2 shares2,
      processFriends knownIds itemId itemName perShare l st shares =
        Except.ok (st2, shares2) →
      st2.items = st.items ∧ st2.receipt_subtotal = st.receipt_subtotal ∧
        shares2 = shares ++ l.map fun f => ⟨f.id, f.name, perShare⟩ := by
  induction l with
  | nil =>
    intro st shares st2 shares2 h
    simp only [processFriends, Except.ok.injEq, Prod.mk.injEq] at h
    obtain ⟨rfl, rfl⟩ := h
    simp
  | cons f rest ih =>
    intro st shares st2 shares2 h
    simp only [processFriends] at h
    split at h
    · obtain ⟨h1, h2, h3⟩ := ih _ _ _ _ h
      refine ⟨h1, h2, ?_⟩
      rw [h3]
      simp
    · simp at h

/-- If every linked friend id is a known key, the inner friends loop
succeeds. -/
theorem processFriends_ok_of_known (knownIds : List FriendId) (itemId : Nat)
    (itemName : String) (perShare : ℚ) (l : List Friend)
    (hl : ∀ f ∈ l, f.id ∈ knownIds) :
    ∀ st shares, ∃ st2 shares2,
      processFriends knownIds itemId itemName perShare l st shares =
        Except.ok (st2, shares2) := by
  induction l with
  | nil => intro st shares; exact ⟨st, shares, rfl⟩
  | cons f rest ih =>
    intro st shares
    have hf : f.id ∈ knownIds := hl f (List.mem_cons_self f rest)
    simp only [processFriends, if_pos hf]
    exact ih (fun g hg => hl g (List.mem_cons_of_mem f hg)) _ _

/-- If some linked friend id is not a known key, the inner friends loop raises
`KeyError` on an unknown id. -/
theorem processFriends_err (knownIds : List FriendId) (itemId : Nat)
    (itemName : String) (perShare : ℚ) (l : List Friend)
    (hl : ∃ f ∈ l, f.id ∉ knownIds) :
    ∀ st shares, ∃ g,
      processFriends knownIds itemId itemName perShare l st shares =
        Except.error (CalcError.keyError g) ∧ g ∉ knownIds := by
  induction l with
  | nil => simp at hl
  | cons f rest ih =>
    intro st shares
    by_cases hf : f.id ∈ knownIds
    · have hl' : ∃ g ∈ rest, g.id ∉ knownIds := by
        obtain ⟨g, hg, hgn⟩ := hl
        rcases List.mem_cons.mp hg with rfl | hr
        · exact absurd hf hgn
        · exact ⟨g, hr, hgn⟩
      simp only [processFriends, if_pos hf]
      exact ih hl' _ _
    · simp only [processFriends, if_neg hf]
      exact ⟨f.id, rfl, hf⟩

/-- A successful iteration of the item loop appends exactly `mkItemOut item` to
the output items and adds the item's recorded price to `receipt_subtotal`. -/
theorem processItem_ok {knownIds : List FriendId} {item : Item}
    {st st1 : CalcState} (h : processItem knownIds item st = Except.ok st1) :
    st1.items = st.items ++ [mkItemOut item] ∧
      st1.receipt_subtotal = st.receipt_subtotal + item.unit_price := by
  unfold processItem at h
  split at h
  · simp at h
  · split at h
    · next hemp =>
      have hfr : item.item_friends = [] := by
        cases hl : item.item_friends with
        | nil => rfl
        | cons f rest => rw [hl] at hemp; simp at hemp
      simp only [Except.ok.injEq] at h
      subst h
      constructor <;> simp [appendItem, mkItemOut, hfr]
    · next hemp =>
      split at h
      · simp at h
      · next st2 shares heq =>
        obtain ⟨h1, h2, h3⟩ := processFriends_ok _ _ _ _ _ _ _ _ _ heq
        simp only [Except.ok.injEq] at h
        subst h
        constructor
        · simp [appendItem, mkItemOut, h1, h3]
        · simp [appendItem, h2]

/-- If the item's quantity is nonzero (so the `unit_total` division succeeds)
and every friend linked to the item is known, the item loop iteration
succeeds. -/
theorem processItem_ok_of_known {knownIds : List FriendId} {item : Item}
    (hq : item.quantity ≠ 0)
    (hl : ∀ f ∈ item.item_friends, f.id ∈ knownIds) (st : CalcState) :
    ∃ st1, processItem knownIds item st = Except.ok st1 := by
  unfold processItem
  rw [if_neg hq]
  split
  · exact ⟨_, rfl⟩
  · obtain ⟨st2, shares2, heq⟩ :=
      processFriends_ok_of_known knownIds item.id item.item_name
        (round2 (item.unit_price / (item.item_friends.length : ℚ)))
        item.item_friends hl st []
    rw [heq]
    exact ⟨_, rfl⟩

/-- If the item's quantity is nonzero and some friend linked to the item is
unknown, the item loop iteration raises `KeyError` on an unknown id. -/
theorem processItem_err {knownIds : List FriendId} {item : Item}
    (hq : item.quantity ≠ 0)
    (hl : ∃ f ∈ item.item_friends, f.id ∉ knownIds) (st : CalcState) :
    ∃ g, processItem knownIds item st = Except.error (CalcError.keyError g) ∧
      g ∉ knownIds := by
  have hne : ¬ item.item_friends.isEmpty = true := by
    obtain ⟨f, hf, _⟩ := hl
    cases hl' : item.item_friends with
    | nil => rw [hl'] at hf; simp at hf
    | cons g rest => simp
  unfold processItem
  rw [if_neg hq, if_neg hne]
  obtain ⟨g, heq, hgn⟩ :=
    processFriends_err knownIds item.id item.item_name
      (round2 (item.unit_price / (item.item_friends.length : ℚ)))
      item.item_friends hl st []
  rw [heq]
  exact ⟨g, rfl, hgn⟩

/-- An item with quantity 0 makes the iteration raise the `decimal` division
error from `unit_price / Decimal(quantity)`, whatever its friend links are. -/
theorem processItem_div_err {knownIds : List FriendId} {item : Item}
    (hq : item.quantity = 0) (st : CalcState) :
    processItem knownIds item st =
      Except.error
        (if item.unit_price = 0 then CalcError.invalidOperation
         else CalcError.divisionByZero) := by
  unfold processItem
  rw [if_pos hq]

/-- A successful run of the whole item loop appends `mkItemOut` of every item in
receipt order and accumulates the sum of all recorded item prices — including
items with no linked friends — into `receipt_subtotal`. -/
theorem processItems_ok (knownIds : List FriendId) (l : List Item) :
    ∀ st st', processItems knownIds l st = Except.ok st' →
      st'.items = st.items ++ l.map mkItemOut ∧
        st'.receipt_subtotal = st.receipt_subtotal + (l.map Item.unit_price).sum := by
  induction l with
  | nil =>
    intro st st' h
    simp only [processItems, Except.ok.injEq] at h
    subst h
    simp
  | cons item rest ih =>
    intro st st' h
    simp only [processItems] at h
    cases heq : processItem knownIds item st with
    | error g => rw [heq] at h; simp at h
    | ok st1 =>
      rw [heq] at h
      obtain ⟨ha, hb⟩ := processItem_ok heq
      obtain ⟨hc, hd⟩ := ih st1 st' h
      constructor
      · rw [hc, ha]
        simp
      · rw [hd, hb]
        simp
        ring

/-- If every item has a nonzero quantity and every friend linked to any item is
known, the whole item loop succeeds. -/
theorem processItems_ok_of_known (knownIds : List FriendId) (l : List Item)
    (hq : ∀ item ∈ l, item.quantity ≠ 0)
    (hl : ∀ item ∈ l, ∀ f ∈ item.item_friends, f.id ∈ knownIds) :
    ∀ st, ∃ st', processItems knownIds l st = Except.ok st' := by
  induction l with
  | nil => intro st; exact ⟨st, rfl⟩
  | cons item rest ih =>
    intro st
    obtain ⟨st1, heq⟩ :=
      processItem_ok_of_known (hq item (List.mem_cons_self item rest))
        (hl item (List.mem_cons_self item rest)) st
    simp only [processItems]
    rw [heq]
    exact ih (fun it hit => hq it (List.mem_cons_of_mem item hit))
      (fun it hit => hl it (List.mem_cons_of_mem item hit)) st1

/-- If every item has a nonzero quantity and some item links an unknown friend,
the whole item loop raises `KeyError` on an unknown id. -/
theorem processItems_err (knownIds : List FriendId) (l : List Item)
    (hq : ∀ item ∈ l, item.quantity ≠ 0)
    (hl : ∃ item ∈ l, ∃ f ∈ item.item_friends, f.id ∉ knownIds) :
    ∀ st, ∃ g, processItems knownIds l st =
      Except.error (CalcError.keyError g) ∧ g ∉ knownIds := by
  induction l with
  | nil => simp at hl
  | cons item rest ih =>
    intro st
    by_cases hall : ∀ f ∈ item.item_friends, f.id ∈ knownIds
    · have hl' : ∃ it ∈ rest, ∃ f ∈ it.item_friends, f.id ∉ knownIds := by
        obtain ⟨it, hit, f, hf, hfn⟩ := hl
        rcases List.mem_cons.mp hit with rfl | hr
        · exact absurd (hall f hf) hfn
        · exact ⟨it, hr, f, hf, hfn⟩
      obtain ⟨st1, heq⟩ :=
        processItem_ok_of_known (hq item (List.mem_cons_self item rest)) hall st
      simp only [processItems]
      rw [heq]
      exact ih (fun it hit => hq it (List.mem_cons_of_mem item hit)) hl' st1
    · push_neg at hall
      obtain ⟨g, heq, hgn⟩ :=
        processItem_err (hq item (List.mem_cons_self item rest)) hall st
      simp only [processItems]
      rw [heq]
      exact ⟨g, rfl, hgn⟩

/-- Characterisation of a successful `_calculate_splits` run: the output is
assembled from the final loop state exactly as the code builds it. -/
theorem calc_splits_ok {r : Receipt} {fs : List Friend} {d : SplitsData}
    (h : _calculate_splits r fs = Except.ok d) :
    ∃ st, processItems (fs.map Friend.id) r.items initState = Except.ok st ∧
      d = ⟨r.id, r.currency, fs.map (mkFriendTotal r st), st.items,
        ⟨st.receipt_subtotal, r.tax, r.service_charge, r.total_amount⟩⟩ := by
  unfold _calculate_splits at h
  cases heq : processItems (fs.map Friend.id) r.items initState with
  | error g => rw [heq] at h; simp at h
  | ok st =>
    rw [heq] at h
    simp only [Except.ok.injEq] at h
    exact ⟨st, rfl, h.symm⟩

/-- Every entry of the output `totals` list carries a tax and service-charge
share computed by `round2` from the proportional ratio of its own subtotal, and
a total that is exactly the sum of its three components. -/
theorem mem_totals_shape {r : Receipt} {fs : List Friend} {d : SplitsData}
    (h : _calculate_splits r fs = Except.ok d) {e : FriendTotal}
    (he : e ∈ d.totals) :
    e.tax = round2 (r.tax * ratioOf d.summary.subtotal e.subtotal) ∧
      e.service_charge =
        round2 (r.service_charge * ratioOf d.summary.subtotal e.subtotal) ∧
      e.total = e.subtotal + e.tax + e.service_charge := by
  obtain ⟨st, hst, rfl⟩ := calc_splits_ok h
  obtain ⟨f, hf, rfl⟩ := List.mem_map.mp he
  exact ⟨rfl, rfl, rfl⟩

/-- The output `totals` list has exactly one entry per receipt friend, in the
input friend-list order. -/
theorem totals_map_id {r : Receipt} {fs : List Friend} {d : SplitsData}
    (h : _calculate_splits r fs = Except.ok d) :
    d.totals.map FriendTotal.id = fs.map Friend.id := by
  obtain ⟨st, hst, rfl⟩ := calc_splits_ok h
  simp only [List.map_map]
  rfl

/-- The output summary's subtotal is the sum of all recorded item prices. -/
theorem calc_summary_subtotal {r : Receipt} {fs : List Friend} {d : SplitsData}
    (h : _calculate_splits r fs = Except.ok d) :
    d.summary.subtotal = (r.items.map Item.unit_price).sum := by
  obtain ⟨st, hst, rfl⟩ := calc_splits_ok h
  obtain ⟨_, hb⟩ := processItems_ok _ _ _ _ hst
  simpa [initState] using hb

/-- The output `items` list is `mkItemOut` of every input item in order. -/
theorem calc_items_shape {r : Receipt} {fs : List Friend} {d : SplitsData}
    (h : _calculate_splits r fs = Except.ok d) :
    d.items = r.items.map mkItemOut := by
  obtain ⟨st, hst, rfl⟩ := calc_splits_ok h
  obtain ⟨ha, _⟩ := processItems_ok _ _ _ _ hst
  simpa [initState] using ha

/-- If every item has a nonzero quantity (no `decimal` division error) and
every friend linked to any item is a receipt friend, `_calculate_splits`
returns split data (no validation of signs or totals takes place). -/
theorem calc_ok_of_known (r : Receipt) (fs : List Friend)
    (hq : ∀ item ∈ r.items, item.quantity ≠ 0)
    (h : ∀ item ∈ r.items, ∀ f ∈ item.item_friends, f.id ∈ fs.map Friend.id) :
    ∃ d, _calculate_splits r fs = Except.ok d := by
  obtain ⟨st, heq⟩ := processItems_ok_of_known _ _ hq h initState
  unfold _calculate_splits
  rw [heq]
  exact ⟨_, rfl⟩

/-- If every item has a nonzero quantity and some item links a friend id that
is not a receipt friend, `_calculate_splits` raises `KeyError` carrying an
unknown friend id. -/
theorem calc_err_of_unknown (r : Receipt) (fs : List Friend)
    (hq : ∀ item ∈ r.items, item.quantity ≠ 0)
    (h : ∃ item ∈ r.items, ∃ f ∈ item.item_friends, f.id ∉ fs.map Friend.id) :
    ∃ g, _calculate_splits r fs = Except.error (CalcError.keyError g) ∧
      g ∉ fs.map Friend.id := by
  obtain ⟨g, heq, hgn⟩ := processItems_err _ _ hq h initState
  unfold _calculate_splits
  rw [heq]
  exact ⟨g, rfl, hgn⟩

/-- Concrete evaluation of the division-error path: a quantity-0 item with a
nonzero price raises `DivisionByZero`, and a quantity-0 item with price 0
raises `InvalidOperation`, in both cases before any split data is built. -/
theorem qEval :
    _calculate_splits qReceipt qFriends = Except.error CalcError.divisionByZero ∧
      _calculate_splits q0Receipt qFriends =
        Except.error CalcError.invalidOperation := by
  constructor <;>
    simp [_calculate_splits, processItems, processItem, processFriends,
          appendItem, initState, qReceipt, q0Receipt, qFriends, friendA]

/-- Concrete evaluation: the split of `wReceipt`. -/
theorem wEval : _calculate_splits wReceipt wFriends = Except.ok wData := by
  simp [_calculate_splits, processItems, processItem, processFriends, appendItem,
        initState, mkFriendTotal, ratioOf, round2, roundHalfUp,
        wReceipt, wFriends, wData, wEntry, friendA]
  norm_num

/-- Concrete evaluation: the split of `zReceipt`. -/
theorem zEval : _calculate_splits zReceipt zFriends = Except.ok zData := by
  simp [_calculate_splits, processItems, processItem, processFriends, appendItem,
        initState, mkFriendTotal, ratioOf, round2, roundHalfUp,
        zReceipt, zFriends, zData, friendA, friendB]
  norm_num

/-- Concrete evaluation: the split of `w9Receipt`. -/
theorem w9Eval : _calculate_splits w9Receipt w9Friends = Except.ok w9Data := by
  simp [_calculate_splits, processItems, processItem, processFriends, appendItem,
        initState, mkFriendTotal, ratioOf, round2, roundHalfUp,
        w9Receipt, w9Friends, w9Data, w9EntryA, w9EntryB, friendA, friendB]
  norm_num

/-- C1 (amended): `_calculate_splits` computes no rounding residual and adjusts
no friend's total — every entry of `totals` has
`total = subtotal + tax + service_charge` exactly as rounded, so the sum of the
per-friend totals is not reconciled to the receipt's recorded grand total. -/
theorem c1_total_is_component_sum {r : Receipt} {fs : List Friend}
    {d : SplitsData} (h : _calculate_splits r fs = Except.ok d) :
    ∀ e ∈ d.totals, e.total = e.subtotal + e.tax + e.service_charge :=
  fun _ he => (mem_totals_shape h he).2.2

/-- C1 counterexample: on the specification's own worked example
(grand total 31.00, tax 2.50, service charge 3.00, a 24.00 item shared by the
two friends and an unassigned 1.50 item) the per-friend totals sum to 29.18,
not to the recorded grand total 31.00. -/
theorem c1_counterexample :
    sumTotals (_calculate_splits cx1Receipt cx1Friends) = 1459 / 50 ∧
      cx1Receipt.total_amount = 31 ∧ (1459 / 50 : ℚ) ≠ 31 := by
  refine ⟨?_, rfl, by norm_num⟩
  simp [sumTotals, _calculate_splits, processItems, processItem, processFriends,
        appendItem, initState, mkFriendTotal, ratioOf, round2, roundHalfUp,
        cx1Receipt, cx1Friends, friendA, friendB]
  norm_num

/-- C1 witness: on `wReceipt` the (only) totals entry satisfies
`total = subtotal + tax + service_charge`, i.e. `11 = 10 + 1 + 0`. -/
theorem c1_witness :
    _calculate_splits wReceipt wFriends = Except.ok wData ∧
      wEntry ∈ wData.totals ∧
      wEntry.total = wEntry.subtotal + wEntry.tax + wEntry.service_charge :=
  ⟨wEval, by simp [wData], c1_total_is_component_sum wEval wEntry (by simp [wData])⟩

/-- C2 (amended): every receipt friend appears in the computed `totals` list —
including friends with zero assigned items, who appear with an all-zero
subtotal rather than being omitted. -/
theorem c2_every_receipt_friend_listed {r : Receipt} {fs : List Friend}
    {d : SplitsData} (h : _calculate_splits r fs = Except.ok d) :
    ∀ f ∈ fs, ∃ e ∈ d.totals, e.id = f.id := by
  obtain ⟨st, hst, rfl⟩ := calc_splits_ok h
  intro f hf
  exact ⟨mkFriendTotal r st f, List.mem_map_of_mem _ hf, rfl⟩

/-- C2 counterexample: on `zReceipt`, friend 1 is linked to no item (the only
item's friend list is `[friendB]`), yet friend 1 appears in `totals` with
subtotal 0 — the claim says such a friend must not appear at all. -/
theorem c2_counterexample :
    totalsIdSub (_calculate_splits zReceipt zFriends) = [(1, 0), (2, 10)] ∧
      zReceipt.items.map Item.item_friends = [[friendB]] ∧
      friendA.id = 1 ∧ friendB.id = 2 := by
  refine ⟨?_, rfl, rfl, rfl⟩
  rw [zEval]
  simp [totalsIdSub, zData]

/-- C2 witness: friend 1 of `zReceipt` (who has no assigned item) has an entry
in the computed totals. -/
theorem c2_witness :
    _calculate_splits zReceipt zFriends = Except.ok zData ∧
      friendA ∈ zFriends ∧ ∃ e ∈ zData.totals, e.id = friendA.id :=
  ⟨zEval, by simp [zFriends],
    c2_every_receipt_friend_listed zEval friendA (by simp [zFriends])⟩

/-- C3 (amended): the computed `totals` list is not sorted; it lists friends in
the order of the receipt's friend list (one entry per friend, same order),
regardless of subtotals. -/
theorem c3_totals_follow_input_order {r : Receipt} {fs : List Friend}
    {d : SplitsData} (h : _calculate_splits r fs = Except.ok d) :
    d.totals.map FriendTotal.id = fs.map Friend.id :=
  totals_map_id h

/-- C3 counterexample: on `zReceipt` the totals are `[(1, 0), (2, 10)]` — the
first entry's subtotal 0 is strictly smaller than the second's 10, so the list
is not in descending-subtotal order as claimed. -/
theorem c3_counterexample :
    totalsIdSub (_calculate_splits zReceipt zFriends) = [(1, 0), (2, 10)] ∧
      (0 : ℚ) < 10 := by
  refine ⟨?_, by norm_num⟩
  rw [zEval]
  simp [totalsIdSub, zData]

/-- C3 witness: on `zReceipt` the totals ids follow the input friend order
`[1, 2]`. -/
theorem c3_witness :
    _calculate_splits zReceipt zFriends = Except.ok zData ∧
      zData.totals.map FriendTotal.id = zFriends.map Friend.id :=
  ⟨zEval, c3_totals_follow_input_order zEval⟩

/-- C4 (amended): when every item's quantity is nonzero (so no `decimal`
division error fires first at the `unit_total` computation), an item
referencing a friend id outside the receipt's friend set makes
`_calculate_splits` raise a `KeyError` carrying an unknown friend id (the
dictionary lookup `friend_subtotals[f.id]` fails); no split data is returned,
but the error is a plain `KeyError` naming only the friend id, not an
`UnknownFriendReference` identifying the offending item.  (With a quantity-0
item at or before the offending link the run instead dies on the division
error, see `qEval`.) -/
theorem c4_unknown_friend_key_error (r : Receipt) (fs : List Friend)
    (hq : ∀ item ∈ r.items, item.quantity ≠ 0)
    (h : ∃ item ∈ r.items, ∃ f ∈ item.item_friends, f.id ∉ fs.map Friend.id) :
    ∃ g, _calculate_splits r fs = Except.error (CalcError.keyError g) ∧
      g ∉ fs.map Friend.id :=
  calc_err_of_unknown r fs hq h

/-- C4 counterexample: on `uReceipt` (item linked to friend 99, known friends
`[1]`) the computation fails with a `KeyError` carrying the bare friend id 99 —
no item information and no `UnknownFriendReference` structure. -/
theorem c4_counterexample :
    _calculate_splits uReceipt uFriends =
        Except.error (CalcError.keyError 99) ∧
      uFriends.map Friend.id = [1] := by
  refine ⟨?_, rfl⟩
  simp [_calculate_splits, processItems, processItem, processFriends, appendItem,
        initState, uReceipt, uFriends, friendA, friendZ]

/-- C4 witness: `uReceipt` has nonzero item quantities and an item linked to
unknown friend 99, and the computation raises `KeyError` with an id outside the
known set. -/
theorem c4_witness :
    (∀ item ∈ uReceipt.items, item.quantity ≠ 0) ∧
      (∃ item ∈ uReceipt.items, ∃ f ∈ item.item_friends,
        f.id ∉ uFriends.map Friend.id) ∧
      ∃ g, _calculate_splits uReceipt uFriends =
        Except.error (CalcError.keyError g) ∧ g ∉ uFriends.map Friend.id :=
  ⟨by simp [uReceipt], by simp [uReceipt, uFriends, friendA, friendZ],
    c4_unknown_friend_key_error uReceipt uFriends (by simp [uReceipt])
      (by simp [uReceipt, uFriends, friendA, friendZ])⟩

/-- C5 (amended): with an empty items list `_calculate_splits` raises nothing
and returns split data whose summary is `(0, tax, service_charge,
total_amount)` — the recorded tax, service charge and grand total are echoed
verbatim, not zeroed — and whose `totals` list has one all-zero entry per
receipt friend rather than being empty. -/
theorem c5_empty_items_result (r : Receipt) (fs : List Friend)
    (h : r.items = []) :
    ∃ d, _calculate_splits r fs = Except.ok d ∧
      d.summary = ⟨0, r.tax, r.service_charge, r.total_amount⟩ ∧
      d.totals.map FriendTotal.id = fs.map Friend.id ∧
      ∀ e ∈ d.totals,
        e.subtotal = 0 ∧ e.tax = 0 ∧ e.service_charge = 0 ∧ e.total = 0 := by
  unfold _calculate_splits
  rw [h]
  simp only [processItems]
  refine ⟨_, rfl, rfl, ?_, ?_⟩
  · simp only [List.map_map]
    rfl
  · intro e he
    obtain ⟨f, hf, rfl⟩ := List.mem_map.mp he
    refine ⟨rfl, ?_, ?_, ?_⟩ <;>
      simp [mkFriendTotal, initState, ratioOf, round2_zero]

/-- C5 counterexample: on `eReceipt` (no items, tax 2.50, service charge 1.75,
grand total 31) the summary is `(0, 2.50, 1.75, 31)` — not all zeros — and the
totals list contains an entry for friend 1 instead of being empty. -/
theorem c5_counterexample :
    summaryOf (_calculate_splits eReceipt eFriends) = some ⟨0, 5 / 2, 7 / 4, 31⟩ ∧
      totalsIdSub (_calculate_splits eReceipt eFriends) = [(1, 0)] ∧
      (5 / 2 : ℚ) ≠ 0 := by
  refine ⟨?_, ?_, by norm_num⟩ <;>
    simp [summaryOf, totalsIdSub, _calculate_splits, processItems, processItem,
          processFriends, appendItem, initState, mkFriendTotal, ratioOf,
          round2, roundHalfUp, eReceipt, eFriends, friendA]

/-- C5 witness: the amended statement instantiated at `eReceipt`. -/
theorem c5_witness :
    eReceipt.items = [] ∧
      ∃ d, _calculate_splits eReceipt eFriends = Except.ok d ∧
        d.summary = ⟨0, eReceipt.tax, eReceipt.service_charge,
          eReceipt.total_amount⟩ ∧
        d.totals.map FriendTotal.id = eFriends.map Friend.id ∧
        ∀ e ∈ d.totals,
          e.subtotal = 0 ∧ e.tax = 0 ∧ e.service_charge = 0 ∧ e.total = 0 :=
  ⟨rfl, c5_empty_items_result eReceipt eFriends rfl⟩

/-- C6 (amended): `_calculate_splits` performs no monetary validation — in
particular no negativity check on costs, tax, service charge or grand total,
and no `InvalidInput` error exists.  Whenever every item quantity is nonzero
(the only arithmetic failure, a `decimal` division error, see `qEval`) and
every item-friend reference is known, it returns split data, processing
negative monetary values arithmetically instead of rejecting them. -/
theorem c6_no_negativity_validation (r : Receipt) (fs : List Friend)
    (hq : ∀ item ∈ r.items, item.quantity ≠ 0)
    (h : ∀ item ∈ r.items, ∀ f ∈ item.item_friends, f.id ∈ fs.map Friend.id) :
    ∃ d, _calculate_splits r fs = Except.ok d :=
  calc_ok_of_known r fs hq h

/-- C6 counterexample: `nReceipt` has a negative item cost, negative tax,
negative service charge and negative grand total, yet the computation returns
split data instead of raising an error. -/
theorem c6_counterexample :
    calcIsOk (_calculate_splits nReceipt nFriends) = true ∧
      nReceipt.tax < 0 ∧ nReceipt.service_charge < 0 ∧
      nReceipt.total_amount < 0 ∧
      nReceipt.items.map Item.unit_price = [-2] := by
  refine ⟨?_, by norm_num [nReceipt], by norm_num [nReceipt],
    by norm_num [nReceipt], rfl⟩
  simp [calcIsOk, _calculate_splits, processItems, processItem, processFriends,
        appendItem, initState, mkFriendTotal, ratioOf, round2, roundHalfUp,
        nReceipt, nFriends, friendA]

/-- C6 witness: the amended statement instantiated at the all-negative
`nReceipt`. -/
theorem c6_witness :
    (∀ item ∈ nReceipt.items, item.quantity ≠ 0) ∧
      (∀ item ∈ nReceipt.items, ∀ f ∈ item.item_friends,
        f.id ∈ nFriends.map Friend.id) ∧
      ∃ d, _calculate_splits nReceipt nFriends = Except.ok d :=
  ⟨by simp [nReceipt], by simp [nReceipt, nFriends, friendA],
    c6_no_negativity_validation nReceipt nFriends (by simp [nReceipt])
      (by simp [nReceipt, nFriends, friendA])⟩

/-- C7: for every item, each linked friend receives exactly
`round2(item cost / number of linked friends)` — the same amount for every
linked friend of the item (the `friends` field of `mkItemOut`) — an item with
no linked friends produces an empty share list, and every item's full recorded
cost (assigned or not) is accumulated into the summary's subtotal baseline. -/
theorem c7_per_item_even_split {r : Receipt} {fs : List Friend} {d : SplitsData}
    (h : _calculate_splits r fs = Except.ok d) :
    d.items = r.items.map mkItemOut ∧
      d.summary.subtotal = (r.items.map Item.unit_price).sum :=
  ⟨calc_items_shape h, calc_summary_subtotal h⟩

/-- C7 witness: the statement instantiated at `wReceipt`. -/
theorem c7_witness :
    _calculate_splits wReceipt wFriends = Except.ok wData ∧
      wData.items = wReceipt.items.map mkItemOut ∧
      wData.summary.subtotal = (wReceipt.items.map Item.unit_price).sum :=
  ⟨wEval, c7_per_item_even_split wEval⟩

/-- C8: when the subtotal baseline (the sum of all recorded item costs) is
zero, the proportional allocation raises no division error — the guard
`receipt_subtotal > 0` makes every friend's ratio zero, so every tax and
service-charge share is zero and split data is still returned.  The run must
reach the allocation at all, so the item quantities are required nonzero: a
quantity-0 item dies earlier on the unguarded `unit_total` division
(`InvalidOperation` for a cost-0 item, see `qEval`), which is a failure of the
per-item loop, not of the baseline guard this claim is about. -/
theorem c8_zero_baseline_zero_shares (r : Receipt) (fs : List Friend)
    (hq : ∀ item ∈ r.items, item.quantity ≠ 0)
    (hknown : ∀ item ∈ r.items, ∀ f ∈ item.item_friends,
      f.id ∈ fs.map Friend.id)
    (hzero : (r.items.map Item.unit_price).sum = 0) :
    ∃ d, _calculate_splits r fs = Except.ok d ∧
      ∀ e ∈ d.totals, e.tax = 0 ∧ e.service_charge = 0 := by
  obtain ⟨d, hd⟩ := calc_ok_of_known r fs hq hknown
  refine ⟨d, hd, fun e he => ?_⟩
  obtain ⟨hta, hsv, _⟩ := mem_totals_shape hd he
  have hS : d.summary.subtotal = 0 := (calc_summary_subtotal hd).trans hzero
  rw [hta, hsv, hS]
  constructor <;> simp [ratioOf, round2_zero]

/-- C8 witness: the statement instantiated at `bReceipt`, whose only item
costs 0 (with quantity 1) while tax is 3 and service charge is 4. -/
theorem c8_witness :
    (∀ item ∈ bReceipt.items, item.quantity ≠ 0) ∧
      (∀ item ∈ bReceipt.items, ∀ f ∈ item.item_friends,
        f.id ∈ bFriends.map Friend.id) ∧
      (bReceipt.items.map Item.unit_price).sum = 0 ∧
      ∃ d, _calculate_splits bReceipt bFriends = Except.ok d ∧
        ∀ e ∈ d.totals, e.tax = 0 ∧ e.service_charge = 0 :=
  ⟨by simp [bReceipt], by simp [bReceipt, bFriends, friendA],
    by simp [bReceipt],
    c8_zero_baseline_zero_shares bReceipt bFriends (by simp [bReceipt])
      (by simp [bReceipt, bFriends, friendA]) (by simp [bReceipt])⟩

/-- C9: with a non-negative recorded tax, the proportional allocation is
monotone — a friend with a strictly larger subtotal receives a tax share at
least as large, because the ratio is monotone in the subtotal and `round2`
(round half up) is monotone. -/
theorem c9_tax_allocation_monotone {r : Receipt} {fs : List Friend}
    {d : SplitsData} (h : _calculate_splits r fs = Except.ok d)
    (htax : 0 ≤ r.tax) :
    ∀ a ∈ d.totals, ∀ b ∈ d.totals, b.subtotal < a.subtotal → b.tax ≤ a.tax := by
  intro a ha b hb hlt
  obtain ⟨hta, _, _⟩ := mem_totals_shape h ha
  obtain ⟨htb, _, _⟩ := mem_totals_shape h hb
  rw [hta, htb]
  exact round2_mono
    (mul_le_mul_of_nonneg_left (ratioOf_mono (le_of_lt hlt)) htax)

/-- C9 witness: on `w9Receipt`, friend 2's subtotal 5 is below friend 1's 10
and friend 2's tax share 0.33 is below friend 1's 0.67. -/
theorem c9_witness :
    _calculate_splits w9Receipt w9Friends = Except.ok w9Data ∧
      (0 : ℚ) ≤ w9Receipt.tax ∧
      w9EntryA ∈ w9Data.totals ∧ w9EntryB ∈ w9Data.totals ∧
      w9EntryB.subtotal < w9EntryA.subtotal ∧ w9EntryB.tax ≤ w9EntryA.tax :=
  ⟨w9Eval, by norm_num [w9Receipt], by simp [w9Data], by simp [w9Data],
    by norm_num [w9EntryA, w9EntryB],
    c9_tax_allocation_monotone w9Eval (by norm_num [w9Receipt])
      w9EntryA (by simp [w9Data]) w9EntryB (by simp [w9Data])
      (by norm_num [w9EntryA, w9EntryB])⟩

/-- C10: with no receipt friends, `calculate_receipt_splits` returns no split
data — but the exception actually raised is a `TypeError`, because the
`raise ReceiptSplitCalculationError(reason=..., correlation_id=...)` call omits
the constructor's required `receipt_id` argument; the intended
`ReceiptSplitCalculationError` is never produced. -/
theorem c10_no_friends_raises_type_error (r : Receipt) :
    calculate_receipt_splits r [] = Except.error noFriendsRaise ∧
      ∀ reason, noFriendsRaise ≠ ServiceError.splitCalculationError reason :=
  ⟨rfl, fun _ h => ServiceError.noConfusion h⟩

end WhoPays
